import Mathlib

/-!
Verification of the SecondChance operational scripts.

The definitions below are a shallow embedding of the JavaScript sources:
- `src/scripts/email-notifications.js` (EmailNotificationService: TEMPLATES,
  sendNotification, processQueue, logToFile),
- `src/scripts/todo-generator.js` (TodoGenerator: failurePatterns,
  determinePriority, determineCategory),
- `src/scripts/email-bug-monitor.js` (EmailBugMonitor: MONITOR_CONFIG.patterns,
  processEmail, createTodoFromBug, sendAcknowledgment).

JavaScript strings are Lean `String`; regular expressions made of literal
alternatives become substring checks; `a.*b` regexes become an in-order
match whose gap may not cross a newline (as `.` in JS does not match it).
A JS field that may be `undefined` is an `Option String`; template-literal
interpolation of `undefined` produces the string "undefined" (`jsStr`),
while the `x || y` idiom also treats the empty string as falsy (`jsOr`).
Asynchronous awaits are modelled by run-to-completion state functions plus,
for interleaving-sensitive claims, a small-step transition relation.
-/

/-! ### String and pattern primitives -/

/-- Character list of a string. -/
def chars (s : String) : List Char := s.data

/-- Boolean prefix test on character lists. -/
def isPrefixB : List Char → List Char → Bool
  | [], _ => true
  | _ :: _, [] => false
  | a :: as, b :: bs => a == b && isPrefixB as bs

/-- Boolean substring test: does `a` occur contiguously in `s`? -/
def containsB (a : List Char) : List Char → Bool
  | [] => isPrefixB a []
  | c :: t => isPrefixB a (c :: t) || containsB a t

/-- Matches the regex fragment `[^\n]*b` against the front of the input:
`b` occurs after a (possibly empty) gap that contains no newline,
as `.` in a JavaScript regex does not match a newline. -/
def restMatch (b : List Char) : List Char → Bool
  | [] => isPrefixB b []
  | c :: t => isPrefixB b (c :: t) || (!(c == '\n') && restMatch b t)

/-- Matches the regex `a.*b` anywhere in the input: an occurrence of `a`
followed, with no newline in between, by an occurrence of `b`. -/
def seqMatch (a b : List Char) : List Char → Bool
  | [] => isPrefixB a [] && restMatch b []
  | c :: t => (isPrefixB a (c :: t) && restMatch b (List.drop a.length (c :: t)))
      || seqMatch a b t

/-- Does `s` contain any of the given literal words? This is the meaning of a
regex that is a plain alternation of literals applied to lowercased text. -/
def anyContains (s : String) (words : List String) : Bool :=
  words.any (fun w => containsB (chars w) (chars s))

/-- `toLowerCase()`: ASCII case folding applied characterwise (the alphabets
in all classified inputs are ASCII), written over the character list so
that it evaluates by kernel reduction. -/
def toLowerStr (s : String) : String := String.mk (s.data.map Char.toLower)

/-- JS template-literal interpolation: an `undefined` field renders as the
string "undefined". -/
def jsStr (o : Option String) : String :=
  match o with
  | some s => s
  | none => "undefined"

/-- The JS `x || d` default idiom: both `undefined` and the empty string are
falsy and fall through to the default. -/
def jsOr (o : Option String) (d : String) : String :=
  match o with
  | some s => if s.isEmpty then d else s
  | none => d

/-! ### Email templates and message rendering (email-notifications.js) -/

/-- One entry of `TEMPLATES`: subject decoration and priority. -/
structure Template where
  subject : String
  priority : String
deriving DecidableEq, Repr

/-- `TEMPLATES.bug_report`, also the fallback for unknown types. -/
def bug_report_template : Template :=
  { subject := "🐛 Bug Report Received", priority := "normal" }

/-- The `TEMPLATES` table of email-notifications.js. -/
def TEMPLATES : List (String × Template) :=
  [ ("test_results", { subject := "Test Results", priority := "normal" })
  , ("test_failure", { subject := "⚠️ Test Failure Detected", priority := "high" })
  , ("build_success", { subject := "✅ Build Successful", priority := "normal" })
  , ("build_failure", { subject := "❌ Build Failed", priority := "high" })
  , ("security_alert", { subject := "🚨 Security Alert", priority := "urgent" })
  , ("performance_issue", { subject := "⚡ Performance Issue Detected", priority := "high" })
  , ("bug_report", bug_report_template)
  , ("crisis_system_error", { subject := "🆘 Crisis System Error", priority := "urgent" })
  ]

/-- `TEMPLATES[type] || TEMPLATES.bug_report`. -/
def templateFor (type : String) : Template :=
  match TEMPLATES.lookup type with
  | some t => t
  | none => bug_report_template

/-- The rendered outbound message (`emailData` in sendNotification).
The JS fields `from` and `to` are Lean keywords, so they are called
`fromAddr` and `toAddr`. -/
structure EmailData where
  fromAddr : String
  toAddr : String
  subject : String
  html : String
  priority : String
  xPriority : String
  hdrType : String
  hdrTimestamp : String
deriving DecidableEq, Repr

/-- The `emailData` record built at the top of `sendNotification`:
template lookup with bug_report fallback, subject prefixed with
"[Second Chance]", the X-Priority header mapping, and the original type
kept in the X-Second-Chance-Type header. `generateBody` stands for
`this.generateEmailBody(type, data)` and `ts` for the header timestamp
`new Date().toISOString()`. -/
def mkEmailData {α : Type} (generateBody : String → α → String)
    (type : String) (data : α) (ts : String) : EmailData :=
  let template := templateFor type
  { fromAddr := "secondchance.notifications@gmail.com"
  , toAddr := "exiledev8668@gmail.com"
  , subject := "[Second Chance] " ++ template.subject
  , html := generateBody type data
  , priority := template.priority
  , xPriority :=
      if template.priority = "urgent" then "1"
      else if template.priority = "high" then "2" else "3"
  , hdrType := type
  , hdrTimestamp := ts }

/-! ### Fallback store (logToFile) -/

/-- One file written by `logToFile`. `file` is the spread `...email`;
`timestamp` and `status` are the extra fields added before serialising. -/
structure FallbackFile where
  filename : String
  file : EmailData
  timestamp : String
  status : String
deriving DecidableEq, Repr

/-- `new Date().toISOString().replace(/:/g, '-')`. -/
def sanitizeColons (s : String) : String :=
  String.mk (s.data.map (fun c => if c = ':' then '-' else c))

/-- `logToFile(email)` at wall-clock instant `now` (an ISO timestamp):
writes one file named from the sanitized timestamp and the message type
header, containing the whole message plus the manual-send status marker. -/
def logToFile (now : String) (email : EmailData) : FallbackFile :=
  { filename := sanitizeColons now ++ "_" ++ email.hdrType ++ ".json"
  , file := email
  , timestamp := now
  , status := "queued_for_manual_send" }

/-! ### The drain loop (processQueue) -/

/-- The `while (this.queue.length > 0)` loop of `processQueue`, run to
completion on a queue snapshot. `transporter` is whether `this.transporter`
is set, `attempt e` is whether `transporter.sendMail(e)` succeeds, and
`clock i` is the ISO timestamp observed by the i-th `logToFile` call.
Returns the delivered messages and the fallback files, in queue order. -/
def processQueue (transporter : Bool) (attempt : EmailData → Bool)
    (clock : Nat → String) : List EmailData → Nat → List EmailData × List FallbackFile
  | [], _ => ([], [])
  | e :: rest, n =>
    if transporter then
      if attempt e then
        let r := processQueue transporter attempt clock rest n
        (e :: r.1, r.2)
      else
        let r := processQueue transporter attempt clock rest (n + 1)
        (r.1, logToFile (clock n) e :: r.2)
    else
      let r := processQueue transporter attempt clock rest (n + 1)
      (r.1, logToFile (clock n) e :: r.2)

/-- The fallback files produced when every queued message is persisted
(the transporter-absent case), with successive clock instants. -/
def fallbackAll (clock : Nat → String) : List EmailData → Nat → List FallbackFile
  | [], _ => []
  | e :: rest, n => logToFile (clock n) e :: fallbackAll clock rest (n + 1)

/-! ### The service state and sendNotification (run-to-completion view) -/

/-- The mutable state of `EmailNotificationService`, with the delivery and
fallback histories kept for specification purposes. -/
structure DispatchState where
  transporter : Bool
  queue : List EmailData
  isProcessing : Bool
  delivered : List EmailData
  fallback : List FallbackFile
deriving DecidableEq, Repr

/-- The `processQueue` method: the early-return guard
`if (this.queue.length === 0 || this.isProcessing) return;` and then the
drain loop, after which `isProcessing` is false again. -/
def runProcessQueue (attempt : EmailData → Bool) (clock : Nat → String)
    (s : DispatchState) : DispatchState :=
  if s.queue.length = 0 ∨ s.isProcessing = true then s
  else
    let r := processQueue s.transporter attempt clock s.queue s.fallback.length
    { s with queue := [], isProcessing := false,
             delivered := s.delivered ++ r.1, fallback := s.fallback ++ r.2 }

/-- `sendNotification(type, data)` run to completion: render, push to the
queue, then `if (!this.isProcessing) await this.processQueue();`. The call
returns only when that await resolves, so with no drain in progress the
returned state is the fully drained one. -/
def sendNotification {α : Type} (attempt : EmailData → Bool) (clock : Nat → String)
    (generateBody : String → α → String) (s : DispatchState)
    (type : String) (data : α) (ts : String) : DispatchState :=
  let emailData := mkEmailData generateBody type data ts
  let s1 := { s with queue := s.queue ++ [emailData] }
  if s1.isProcessing then s1 else runProcessQueue attempt clock s1

/-! ### Interleaved view of the queue (for the busy-flag invariants)

Submits may interleave with the awaits inside a drain. Each transition is
one atomic synchronous segment of the JS code; `activeDrains` is a ghost
count of `processQueue` passes that have passed the guard and not yet
reset `isProcessing`; `submitted` is the ghost history of pushed messages;
here `fallback` records the persisted messages themselves. -/

structure SvcState where
  queue : List EmailData
  isProcessing : Bool
  activeDrains : Nat
  submitted : List EmailData
  delivered : List EmailData
  fallback : List EmailData
deriving DecidableEq, Repr

/-- The synchronous part of `sendNotification`: `this.queue.push(emailData)`.
Whether a drain then starts is a separate transition guarded by the flag. -/
def submitStep (s : SvcState) (e : EmailData) : SvcState :=
  { s with queue := s.queue ++ [e], submitted := s.submitted ++ [e] }

/-- Atomic transitions of the service. `startDrain` is `processQueue`
passing its guard (queue non-empty, flag clear) and setting the flag;
`deliverOk`/`deliverFail` are one iteration of the while loop (shift the
head, then transporter send or logToFile fallback); `endDrain` is the loop
exiting and clearing the flag. A `processQueue` call made while the flag
is set returns at the guard and is not a transition. -/
inductive Step : SvcState → SvcState → Prop where
  | submit (s : SvcState) (e : EmailData) : Step s (submitStep s e)
  | startDrain (s : SvcState) (hq : s.queue ≠ []) (hp : s.isProcessing = false) :
      Step s { s with isProcessing := true, activeDrains := s.activeDrains + 1 }
  | deliverOk (s : SvcState) (e : EmailData) (rest : List EmailData)
      (hp : s.isProcessing = true) (hq : s.queue = e :: rest) :
      Step s { s with queue := rest, delivered := s.delivered ++ [e] }
  | deliverFail (s : SvcState) (e : EmailData) (rest : List EmailData)
      (hp : s.isProcessing = true) (hq : s.queue = e :: rest) :
      Step s { s with queue := rest, fallback := s.fallback ++ [e] }
  | endDrain (s : SvcState) (hp : s.isProcessing = true) (hq : s.queue = []) :
      Step s { s with isProcessing := false, activeDrains := s.activeDrains - 1 }

/-- The freshly constructed service: empty queue, flag clear. -/
def initState : SvcState :=
  { queue := [], isProcessing := false, activeDrains := 0,
    submitted := [], delivered := [], fallback := [] }

/-- States reachable from the initial service state. -/
inductive Reachable : SvcState → Prop where
  | init : Reachable initState
  | step {s t : SvcState} : Reachable s → Step s t → Reachable t

/-! ### The classifier (todo-generator.js) -/

/-- A test-failure record as consumed by `determinePriority` and
`determineCategory`; text fields may be `undefined`. -/
structure Failure where
  error : Option String
  message : Option String
  name : Option String
  severity : Option String
  blocking : Bool
deriving DecidableEq, Repr

/-- `failurePatterns.crisis : /crisis|988|741741|emergency|hotline/i`. -/
def crisisPattern (s : String) : Bool :=
  anyContains s ["crisis", "988", "741741", "emergency", "hotline"]

/-- `failurePatterns.security : /security|vulnerability|exploit|unsafe/i`. -/
def securityPattern (s : String) : Bool :=
  anyContains s ["security", "vulnerability", "exploit", "unsafe"]

/-- `failurePatterns.performance : /timeout|slow|performance|memory.*leak/i`. -/
def performancePattern (s : String) : Bool :=
  anyContains s ["timeout", "slow", "performance"]
    || seqMatch (chars "memory") (chars "leak") (chars s)

/-- `failurePatterns.build : /build.*fail|compilation.*error|bundle.*fail/i`. -/
def buildPattern (s : String) : Bool :=
  seqMatch (chars "build") (chars "fail") (chars s)
    || seqMatch (chars "compilation") (chars "error") (chars s)
    || seqMatch (chars "bundle") (chars "fail") (chars s)

/-- `failurePatterns.test : /test.*fail|fail.*test|error.*test|test.*error/i`. -/
def testFailurePattern (s : String) : Bool :=
  seqMatch (chars "test") (chars "fail") (chars s)
    || seqMatch (chars "fail") (chars "test") (chars s)
    || seqMatch (chars "error") (chars "test") (chars s)
    || seqMatch (chars "test") (chars "error") (chars s)

/-- The text examined by `determinePriority`:
`` `${failure.error} ${failure.message}`.toLowerCase() ``. -/
def priorityText (failure : Failure) : String :=
  toLowerStr (jsStr failure.error ++ " " ++ jsStr failure.message)

/-- The text examined by `determineCategory`:
`` `${failure.error} ${failure.message} ${failure.name}`.toLowerCase() ``. -/
def categoryText (failure : Failure) : String :=
  toLowerStr (jsStr failure.error ++ " " ++ jsStr failure.message ++ " "
    ++ jsStr failure.name)

/-- `TodoGenerator.determinePriority`. -/
def determinePriority (failure : Failure) : String :=
  let errorText := priorityText failure
  if crisisPattern errorText then "critical"
  else if securityPattern errorText then "critical"
  else if failure.severity = some "critical" ∨ failure.blocking = true then "high"
  else if performancePattern errorText then "medium"
  else "low"

/-- `TodoGenerator.determineCategory`. -/
def determineCategory (failure : Failure) : String :=
  let errorText := categoryText failure
  if crisisPattern errorText then "crisis-system"
  else if securityPattern errorText then "security"
  else if performancePattern errorText then "performance"
  else if buildPattern errorText then "build"
  else "general"

/-- The (priority, category) pair the generator attaches to a failure. -/
def classify (failure : Failure) : String × String :=
  (determinePriority failure, determineCategory failure)

/-! ### The inbound mail monitor (email-bug-monitor.js) -/

/-- `MONITOR_CONFIG.patterns.bug : /bug|issue|problem|error|crash|fail/i`. -/
def monitorBugPattern (s : String) : Bool :=
  anyContains s ["bug", "issue", "problem", "error", "crash", "fail"]

/-- `MONITOR_CONFIG.patterns.critical : /critical|urgent|emergency|crisis|down/i`. -/
def monitorCriticalPattern (s : String) : Bool :=
  anyContains s ["critical", "urgent", "emergency", "crisis", "down"]

/-- `MONITOR_CONFIG.patterns.security : /security|vulnerability|exploit|breach/i`. -/
def monitorSecurityPattern (s : String) : Bool :=
  anyContains s ["security", "vulnerability", "exploit", "breach"]

/-- `MONITOR_CONFIG.patterns.performance : /slow|lag|freeze|performance|timeout/i`. -/
def monitorPerformancePattern (s : String) : Bool :=
  anyContains s ["slow", "lag", "freeze", "performance", "timeout"]

/-- A parsed inbound email as handed to `processEmail` by `simpleParser`;
every text field may be absent. `from?.text` is flattened to `fromText`. -/
structure ParsedEmail where
  fromText : Option String
  subject : Option String
  text : Option String
  html : Option String
deriving DecidableEq, Repr

/-- The bug-report record `processEmail` builds. The JS field `from` is the
Lean keyword, so it is called `fromT`. -/
structure BugReport where
  id : String
  fromT : String
  subject : String
  body : String
  priority : String
  category : String
  status : String
deriving DecidableEq, Repr

/-- The TODO item written by `createTodoFromBug`. -/
structure TodoItem where
  id : String
  title : String
  description : String
  priority : String
  category : String
  status : String
  bugReportId : String
deriving DecidableEq, Repr

/-- The acknowledgment record written by `sendAcknowledgment`; the JS
field `to` is a Lean keyword, so it is called `toAddr`. -/
structure AckRecord where
  toAddr : String
  subject : String
deriving DecidableEq, Repr

/-- `createTodoFromBug(bugReport)`. -/
def createTodoFromBug (bugReport : BugReport) : TodoItem :=
  { id := "TODO-" ++ bugReport.id
  , title := "Fix: " ++ bugReport.subject
  , description := String.mk (bugReport.body.data.take 500)
  , priority := bugReport.priority
  , category := bugReport.category
  , status := "pending"
  , bugReportId := bugReport.id }

/-- The `ack` record of `sendAcknowledgment(bugReport)` (recipient and
subject; the fixed body text is not modelled). -/
def mkAck (bugReport : BugReport) : AckRecord :=
  { toAddr := bugReport.fromT
  , subject := "RE: " ++ bugReport.subject ++ " - Bug Report Received" }

/-- The content string `processEmail` classifies:
`` `${bugReport.subject} ${bugReport.body}`.toLowerCase() `` after the
defaults `email.subject || 'No subject'` and `email.text || email.html || ''`. -/
def contentOf (email : ParsedEmail) : String :=
  toLowerStr (jsOr email.subject "No subject" ++ " "
    ++ jsOr email.text (jsOr email.html ""))

/-- Result of `processEmail`: the classified report, and the persisted
outputs (saved report, TODO, acknowledgment) when the bug gate fires. -/
structure ProcessEmailResult where
  report : BugReport
  outputs : Option (BugReport × TodoItem × AckRecord)
deriving DecidableEq, Repr

/-- `EmailBugMonitor.processEmail`, with `bugId` standing for the
`generateBugId()` value. Priority and category decoration use the
critical / security / performance chain; files are written only when
the bug pattern matches the content. -/
def processEmail (bugId : String) (email : ParsedEmail) : ProcessEmailResult :=
  let base : BugReport :=
    { id := bugId
    , fromT := jsOr email.fromText "Unknown"
    , subject := jsOr email.subject "No subject"
    , body := jsOr email.text (jsOr email.html "")
    , priority := "normal"
    , category := "general"
    , status := "new" }
  let content := toLowerStr (base.subject ++ " " ++ base.body)
  let bugReport :=
    if monitorCriticalPattern content then { base with priority := "critical" }
    else if monitorSecurityPattern content then
      { base with priority := "high", category := "security" }
    else if monitorPerformancePattern content then
      { base with category := "performance" }
    else base
  if monitorBugPattern content then
    { report := bugReport
    , outputs := some (bugReport, createTodoFromBug bugReport, mkAck bugReport) }
  else
    { report := bugReport, outputs := none }

/-- A concrete rendered message used in closed instances below. -/
def sampleEmail : EmailData :=
  mkEmailData (fun _ (_ : Unit) => "") "test_results" () "2025-01-01T00:00:00.000Z"

/-! ### Helper lemmas about the drain loop -/

/-- With a transporter, the delivered output of the loop is exactly the
queued messages whose send attempt succeeds. -/
lemma processQueue_fst_true (attempt : EmailData → Bool) (clock : Nat → String)
    (q : List EmailData) (n : Nat) :
    (processQueue true attempt clock q n).1 = q.filter (fun e => attempt e) := by
  induction q generalizing n with
  | nil => rfl
  | cons e rest ih =>
    by_cases h : attempt e <;> simp [processQueue, h, ih]

/-- With a transporter, the messages persisted by the loop are exactly the
queued messages whose send attempt fails. -/
lemma processQueue_snd_map_true (attempt : EmailData → Bool) (clock : Nat → String)
    (q : List EmailData) (n : Nat) :
    ((processQueue true attempt clock q n).2).map FallbackFile.file
      = q.filter (fun e => !attempt e) := by
  induction q generalizing n with
  | nil => rfl
  | cons e rest ih =>
    by_cases h : attempt e <;> simp [processQueue, h, ih, logToFile]

/-- Without a transporter nothing is delivered and every queued message is
persisted, one fallback file each, at successive clock instants. -/
lemma processQueue_false (attempt : EmailData → Bool) (clock : Nat → String)
    (q : List EmailData) (n : Nat) :
    (processQueue false attempt clock q n).1 = []
      ∧ (processQueue false attempt clock q n).2 = fallbackAll clock q n := by
  induction q generalizing n with
  | nil => exact ⟨rfl, rfl⟩
  | cons e rest ih =>
    simpa [processQueue, fallbackAll] using ih (n + 1)

/-- One fallback file per message. -/
lemma fallbackAll_length (clock : Nat → String) (q : List EmailData) (n : Nat) :
    (fallbackAll clock q n).length = q.length := by
  induction q generalizing n with
  | nil => rfl
  | cons e rest ih => simp [fallbackAll, ih]

/-- Each fallback file holds the corresponding queued message unchanged. -/
lemma fallbackAll_map_file (clock : Nat → String) (q : List EmailData) (n : Nat) :
    (fallbackAll clock q n).map FallbackFile.file = q := by
  induction q generalizing n with
  | nil => rfl
  | cons e rest ih => simp [fallbackAll, logToFile, ih]

/-- Conservation through one loop run: delivered messages and persisted
messages together are a permutation of the queue snapshot. -/
lemma processQueue_perm (transporter : Bool) (attempt : EmailData → Bool)
    (clock : Nat → String) (q : List EmailData) (n : Nat) :
    List.Perm
      ((processQueue transporter attempt clock q n).1
        ++ ((processQueue transporter attempt clock q n).2).map FallbackFile.file)
      q := by
  induction q generalizing n with
  | nil => cases transporter <;> simp [processQueue]
  | cons e rest ih =>
    cases transporter with
    | false =>
      simp only [processQueue, Bool.false_eq_true, if_false, List.map_cons, logToFile]
      exact List.perm_middle.trans ((ih (n + 1)).cons e)
    | true =>
      by_cases h : attempt e
      · simpa [processQueue, h] using (ih n).cons e
      · simp only [processQueue, h, if_true, if_false, Bool.false_eq_true, List.map_cons,
          logToFile]
        exact List.perm_middle.trans ((ih (n + 1)).cons e)

/-! ### The busy-flag and conservation invariants of the interleaved model -/

/-- One transition preserves the lockstep between `activeDrains` and the
busy flag, and the conservation of submitted messages. -/
lemma step_inv {s t : SvcState} (hst : Step s t)
    (ih1 : s.activeDrains = (if s.isProcessing then 1 else 0))
    (ih2 : List.Perm s.submitted (s.delivered ++ s.fallback ++ s.queue)) :
    t.activeDrains = (if t.isProcessing then 1 else 0)
      ∧ List.Perm t.submitted (t.delivered ++ t.fallback ++ t.queue) := by
  cases hst with
  | submit e =>
    refine ⟨ih1, ?_⟩
    simpa [submitStep, List.append_assoc] using ih2.append_right [e]
  | startDrain hq hp =>
    rw [hp] at ih1
    refine ⟨by simp [ih1], by simpa using ih2⟩
  | deliverOk e rest hp hq =>
    refine ⟨by simpa using ih1, ?_⟩
    rw [hq] at ih2
    refine ih2.trans ?_
    have hmid :=
      (@List.perm_middle EmailData e s.fallback rest).append_left s.delivered
    simpa [List.append_assoc] using hmid
  | deliverFail e rest hp hq =>
    refine ⟨by simpa using ih1, ?_⟩
    rw [hq] at ih2
    simpa [List.append_assoc] using ih2
  | endDrain hp hq =>
    rw [hp] at ih1
    refine ⟨by simp [ih1], by simpa using ih2⟩

/-- Reachable states keep `activeDrains` in lockstep with the busy flag and
conserve every submitted message across delivered, fallback and queue. -/
lemma reachable_inv (s : SvcState) (h : Reachable s) :
    s.activeDrains = (if s.isProcessing then 1 else 0)
      ∧ List.Perm s.submitted (s.delivered ++ s.fallback ++ s.queue) := by
  induction h with
  | init => exact ⟨rfl, by simp [initState]⟩
  | step hr hstep ih => exact step_inv hstep ih.1 ih.2

/-! ### Claim theorems -/

/-- C1: along every sequence of submit and drain transitions, at most one
drain pass is logically active at any time; a submit performed while a
drain is in progress is a legal transition that appends its message to the
queue and does not change the number of active drains, because
`processQueue` starts a pass only through the `isProcessing`-guarded
`startDrain` transition. -/
theorem single_active_drain (s : SvcState) (e : EmailData) (h : Reachable s) :
    s.activeDrains ≤ 1
    ∧ (submitStep s e).activeDrains = s.activeDrains
    ∧ (submitStep s e).isProcessing = s.isProcessing
    ∧ (submitStep s e).queue = s.queue ++ [e]
    ∧ Step s (submitStep s e) := by
  refine ⟨?_, rfl, rfl, rfl, Step.submit s e⟩
  rw [(reachable_inv s h).1]
  split <;> simp

/-- Witness for C1 at the initial state and a concrete message. -/
theorem single_active_drain_witness :
    initState.activeDrains ≤ 1
    ∧ (submitStep initState sampleEmail).activeDrains = initState.activeDrains
    ∧ (submitStep initState sampleEmail).isProcessing = initState.isProcessing
    ∧ (submitStep initState sampleEmail).queue = initState.queue ++ [sampleEmail]
    ∧ Step initState (submitStep initState sampleEmail) :=
  single_active_drain initState sampleEmail Reachable.init

/-- C2: in every reachable state of the service - in particular whatever
submissions interleaved with a running drain - the multiset of submitted
messages equals the multiset of delivered ones, fallback-persisted ones
and those still queued, so each message is consumed exactly once, none is
duplicated and none is lost. -/
theorem exactly_once_consumption (s : SvcState) (h : Reachable s) :
    List.Perm s.submitted (s.delivered ++ s.fallback ++ s.queue) :=
  (reachable_inv s h).2

/-- Witness for C2 at the initial state. -/
theorem exactly_once_consumption_witness :
    List.Perm initState.submitted
      (initState.delivered ++ initState.fallback ++ initState.queue) :=
  exactly_once_consumption initState Reachable.init

/-- C5: a failed delivery attempt is handled per message: the failed head
is written to the fallback store by `logToFile`, the loop continues with
the remaining queue processed exactly as it would be on its own, the
failed message is never delivered later (no retry), and the fallback
record of a run holds precisely the messages whose attempts failed. -/
theorem per_message_failure_isolation (attempt : EmailData → Bool)
    (clock : Nat → String) (e : EmailData) (rest : List EmailData) (n : Nat)
    (h : attempt e = false) :
    processQueue true attempt clock (e :: rest) n
      = ((processQueue true attempt clock rest (n + 1)).1,
         logToFile (clock n) e :: (processQueue true attempt clock rest (n + 1)).2)
    ∧ e ∉ (processQueue true attempt clock (e :: rest) n).1
    ∧ ((processQueue true attempt clock (e :: rest) n).2).map FallbackFile.file
        = (e :: rest).filter (fun x => !attempt x) := by
  refine ⟨by simp [processQueue, h], ?_, ?_⟩
  · rw [processQueue_fst_true]
    intro hmem
    have hx := (List.mem_filter.mp hmem).2
    rw [h] at hx
    exact Bool.false_ne_true hx
  · rw [processQueue_snd_map_true]

/-- A send-attempt oracle that always fails, for the C5 witness. -/
def failAttempt : EmailData → Bool := fun _ => false

/-- A constant wall clock, for closed instances. -/
def constClock : Nat → String := fun _ => "2025-01-01T00:00:00.000Z"

/-- Witness for C5: one failing message in front of an empty remainder. -/
theorem per_message_failure_isolation_witness :
    processQueue true failAttempt constClock [sampleEmail] 0
      = ((processQueue true failAttempt constClock [] 1).1,
         logToFile (constClock 0) sampleEmail
           :: (processQueue true failAttempt constClock [] 1).2)
    ∧ sampleEmail ∉ (processQueue true failAttempt constClock [sampleEmail] 0).1
    ∧ ((processQueue true failAttempt constClock [sampleEmail] 0).2).map FallbackFile.file
        = ([sampleEmail]).filter (fun x => !failAttempt x) :=
  per_message_failure_isolation failAttempt constClock sampleEmail [] 0 rfl

/-- C4 counterexample: the fallback file is not named with the (literal)
ISO timestamp followed by the event kind: `logToFile` replaces the colons
of the ISO timestamp with hyphens and appends a `.json` extension, so at a
concrete instant the real filename differs from the claimed
`{timestamp}_{eventKind}` shape (with or without the extension). -/
theorem fallback_filename_counterexample :
    (logToFile "2025-01-01T12:34:56.789Z" sampleEmail).filename
        ≠ "2025-01-01T12:34:56.789Z" ++ "_" ++ sampleEmail.hdrType
    ∧ (logToFile "2025-01-01T12:34:56.789Z" sampleEmail).filename
        ≠ "2025-01-01T12:34:56.789Z" ++ "_" ++ sampleEmail.hdrType ++ ".json"
    ∧ (logToFile "2025-01-01T12:34:56.789Z" sampleEmail).filename
        = "2025-01-01T12-34-56.789Z_test_results.json" := by
  exact ⟨by decide, by decide, by decide⟩

/-- C4 (amended): with the transport unavailable no message is delivered
and exactly one fallback file is created per event (the file count equals
the event count and the files hold exactly the queued messages); with a
transport present the file count equals the number of failed attempts; and
each `logToFile` file keeps the full message (hence its recipient, subject
and body), carries the status marker `queued_for_manual_send`, and is
named by the ISO timestamp with colons replaced by hyphens, followed by an
underscore, the event type and `.json`. -/
theorem fallback_file_per_event (attempt : EmailData → Bool) (clock : Nat → String)
    (q : List EmailData) (n : Nat) (now : String) (e : EmailData) :
    (processQueue false attempt clock q n).1 = []
    ∧ (processQueue false attempt clock q n).2 = fallbackAll clock q n
    ∧ (fallbackAll clock q n).length = q.length
    ∧ (fallbackAll clock q n).map FallbackFile.file = q
    ∧ ((processQueue true attempt clock q n).2).length
        = (q.filter (fun x => !attempt x)).length
    ∧ (logToFile now e).file = e
    ∧ (logToFile now e).status = "queued_for_manual_send"
    ∧ (logToFile now e).filename = sanitizeColons now ++ "_" ++ e.hdrType ++ ".json" := by
  refine ⟨(processQueue_false attempt clock q n).1, (processQueue_false attempt clock q n).2,
    fallbackAll_length clock q n, fallbackAll_map_file clock q n, ?_, rfl, rfl, rfl⟩
  have hlen := congrArg List.length (processQueue_snd_map_true attempt clock q n)
  simpa using hlen

/-- The service right after construction: transporter set, nothing queued,
no drain running. -/
def idleState : DispatchState :=
  { transporter := true, queue := [], isProcessing := false,
    delivered := [], fallback := [] }

/-- A service state observed in the middle of a drain pass. -/
def busyState : DispatchState :=
  { transporter := true, queue := [], isProcessing := true,
    delivered := [], fallback := [] }

/-- A send-attempt oracle that always succeeds, for closed instances. -/
def okAttempt : EmailData → Bool := fun _ => true

/-- The body renderer used in closed instances. -/
def constBody : String → Unit → String := fun _ _ => ""

/-- C6 counterexample: when no drain is in progress, `sendNotification`
does NOT return immediately after enqueueing - it awaits `processQueue`,
so at return its own message has already been delivered and the queue is
empty rather than holding the freshly enqueued message. -/
theorem submit_awaits_drain_counterexample :
    sendNotification okAttempt constClock constBody idleState "test_results" () "ts"
        ≠ { idleState with
              queue := idleState.queue ++ [mkEmailData constBody "test_results" () "ts"] }
    ∧ (sendNotification okAttempt constClock constBody idleState "test_results" () "ts").queue
        = []
    ∧ (sendNotification okAttempt constClock constBody idleState "test_results" () "ts").delivered
        = [mkEmailData constBody "test_results" () "ts"] := by
  exact ⟨by decide, by decide, by decide⟩

/-- A call made while a drain is already running returns the enqueue-only
state: the whole effect of `sendNotification` is then the rendered message
appended to the queue. -/
lemma sendNotification_processing {α : Type} (attempt : EmailData → Bool)
    (clock : Nat → String) (generateBody : String → α → String)
    (type : String) (data : α) (ts : String) (s : DispatchState)
    (hs : s.isProcessing = true) :
    sendNotification attempt clock generateBody s type data ts
      = { s with queue := s.queue ++ [mkEmailData generateBody type data ts] } := by
  simp [sendNotification, hs]

/-- A call made with no drain running performs the full drain before
returning. -/
lemma sendNotification_idle {α : Type} (attempt : EmailData → Bool)
    (clock : Nat → String) (generateBody : String → α → String)
    (type : String) (data : α) (ts : String) (t : DispatchState)
    (ht : t.isProcessing = false) :
    sendNotification attempt clock generateBody t type data ts
      = { t with
            queue := []
            isProcessing := false
            delivered := t.delivered
              ++ (processQueue t.transporter attempt clock
                    (t.queue ++ [mkEmailData generateBody type data ts])
                    t.fallback.length).1
            fallback := t.fallback
              ++ (processQueue t.transporter attempt clock
                    (t.queue ++ [mkEmailData generateBody type data ts])
                    t.fallback.length).2 } := by
  simp [sendNotification, runProcessQueue, ht]

/-- C6 (amended): the enqueue of `sendNotification` is unconditional and
unbounded - whatever the queue length the rendered message is appended -
but the call returns immediately only when a drain is already in progress;
with no drain running the call itself drains the queue before returning,
so it returns with an empty queue and with every message, including its
own, delivered or fallback-persisted exactly once. -/
theorem submit_enqueue_semantics {α : Type} (attempt : EmailData → Bool)
    (clock : Nat → String) (generateBody : String → α → String)
    (type : String) (data : α) (ts : String) (s t : DispatchState)
    (hs : s.isProcessing = true) (ht : t.isProcessing = false) :
    sendNotification attempt clock generateBody s type data ts
        = { s with queue := s.queue ++ [mkEmailData generateBody type data ts] }
    ∧ (sendNotification attempt clock generateBody t type data ts).queue = []
    ∧ List.Perm
        ((sendNotification attempt clock generateBody t type data ts).delivered
          ++ ((sendNotification attempt clock generateBody t type data ts).fallback).map
              FallbackFile.file)
        (t.delivered ++ (t.fallback).map FallbackFile.file
          ++ (t.queue ++ [mkEmailData generateBody type data ts])) := by
  refine ⟨sendNotification_processing attempt clock generateBody type data ts s hs, ?_, ?_⟩
  · rw [sendNotification_idle attempt clock generateBody type data ts t ht]
  · rw [sendNotification_idle attempt clock generateBody type data ts t ht]
    have hq := processQueue_perm t.transporter attempt clock
      (t.queue ++ [mkEmailData generateBody type data ts]) t.fallback.length
    simp only [List.map_append, List.append_assoc]
    refine List.Perm.append_left t.delivered ?_
    refine List.perm_append_comm.trans ?_
    rw [List.append_assoc]
    exact List.Perm.append_left _ (List.perm_append_comm.trans hq)

/-- Witness for C6 (amended): a busy state and an idle state with a
concrete message. -/
theorem submit_enqueue_semantics_witness :
    sendNotification okAttempt constClock constBody busyState "test_results" () "ts"
        = { busyState with
              queue := busyState.queue ++ [mkEmailData constBody "test_results" () "ts"] }
    ∧ (sendNotification okAttempt constClock constBody idleState "test_results" () "ts").queue
        = []
    ∧ List.Perm
        ((sendNotification okAttempt constClock constBody idleState "test_results" () "ts").delivered
          ++ ((sendNotification okAttempt constClock constBody idleState "test_results" () "ts").fallback).map
              FallbackFile.file)
        (idleState.delivered ++ (idleState.fallback).map FallbackFile.file
          ++ (idleState.queue ++ [mkEmailData constBody "test_results" () "ts"])) :=
  submit_enqueue_semantics okAttempt constClock constBody "test_results" () "ts"
    busyState idleState rfl rfl

/-- C9: a `sendNotification` type that is not a key of `TEMPLATES` is not
rejected - the rendered message falls back to the bug_report template, so
its subject is "[Second Chance] 🐛 Bug Report Received", its priority is
normal and its X-Priority header is "3"; and for every type the X-Priority
header follows the urgent/high/other mapping to "1"/"2"/"3". -/
theorem unknown_type_bug_report_default {α : Type} (generateBody : String → α → String)
    (type : String) (data : α) (ts : String) (t2 : String)
    (h : TEMPLATES.lookup type = none) :
    (mkEmailData generateBody type data ts).subject
        = "[Second Chance] 🐛 Bug Report Received"
    ∧ (mkEmailData generateBody type data ts).priority = "normal"
    ∧ (mkEmailData generateBody type data ts).xPriority = "3"
    ∧ (mkEmailData generateBody t2 data ts).xPriority
        = (if (templateFor t2).priority = "urgent" then "1"
           else if (templateFor t2).priority = "high" then "2" else "3") := by
  refine ⟨?_, ?_, ?_, rfl⟩ <;>
    simp [mkEmailData, templateFor, h, bug_report_template]

/-- Witness for C9: the unknown type "nonexistent" and the known urgent
type "security_alert". -/
theorem unknown_type_bug_report_default_witness :
    (mkEmailData constBody "nonexistent" () "ts").subject
        = "[Second Chance] 🐛 Bug Report Received"
    ∧ (mkEmailData constBody "nonexistent" () "ts").priority = "normal"
    ∧ (mkEmailData constBody "nonexistent" () "ts").xPriority = "3"
    ∧ (mkEmailData constBody "security_alert" () "ts").xPriority
        = (if (templateFor "security_alert").priority = "urgent" then "1"
           else if (templateFor "security_alert").priority = "high" then "2" else "3") :=
  unknown_type_bug_report_default constBody "nonexistent" () "ts" "security_alert"
    (by decide)

/-! ### Helper lemmas about the monitor -/

/-- The bug-pattern gate of `processEmail`: files are produced exactly when
the bug pattern matches the classified content. -/
lemma processEmail_outputs_isSome (bugId : String) (email : ParsedEmail) :
    ((processEmail bugId email).outputs).isSome = monitorBugPattern (contentOf email) := by
  by_cases hb : monitorBugPattern (contentOf email) <;>
    simp only [contentOf] at hb <;>
    simp [processEmail, contentOf, hb]

/-- When the critical pattern matches the content, `processEmail` sets
priority critical and leaves the category at its initial value general. -/
lemma processEmail_critical (bugId : String) (email : ParsedEmail)
    (hm : monitorCriticalPattern (contentOf email) = true) :
    (processEmail bugId email).report.priority = "critical"
    ∧ (processEmail bugId email).report.category = "general" := by
  simp only [contentOf] at hm
  constructor <;>
    · simp only [processEmail, hm, if_true]
      split <;> rfl

/-- The failure whose only text is its crisis-worded error, for closed
instances. -/
def crisisFailure : Failure :=
  { error := some "crisis", message := none, name := none,
    severity := none, blocking := false }

/-- The failure whose only text is its security-worded error, for closed
instances. -/
def securityFailure : Failure :=
  { error := some "security", message := none, name := none,
    severity := none, blocking := false }

/-- An inbound email whose content holds both a crisis term and a security
term, for closed instances. -/
def crisisSecurityEmail : ParsedEmail :=
  { fromText := none, subject := some "crisis", text := some "security", html := none }

/-- C3 counterexample: the text "crisis security" contains both a crisis
term and a security term of the shared vocabulary, yet the mail monitor
(`processEmail`) classifies such an email with category general - not
crisis-system - so the claimed crisis-first precedence does not hold for
the monitor. -/
theorem monitor_category_counterexample :
    crisisPattern "crisis security" = true
    ∧ securityPattern "crisis security" = true
    ∧ contentOf crisisSecurityEmail = "crisis security"
    ∧ (processEmail "BUG-1" crisisSecurityEmail).report.category = "general"
    ∧ (processEmail "BUG-1" crisisSecurityEmail).report.category ≠ "crisis-system" := by
  exact ⟨by decide, by decide, by decide, by decide, by decide⟩

/-- C3 (amended): in the TODO generator the first-match precedence holds as
claimed - text matching the crisis pattern always classifies as
crisis-system (even when security terms are present), and text matching
security but not crisis classifies as security. In the mail monitor,
however, content matching the critical pattern (which contains the crisis
terms) keeps category general with priority critical: it is never
security, but it is not crisis-system either. -/
theorem classifier_precedence (f g : Failure) (bugId : String) (email : ParsedEmail)
    (hf : crisisPattern (categoryText f) = true)
    (hg1 : crisisPattern (categoryText g) = false)
    (hg2 : securityPattern (categoryText g) = true)
    (hm : monitorCriticalPattern (contentOf email) = true) :
    determineCategory f = "crisis-system"
    ∧ determineCategory g = "security"
    ∧ (processEmail bugId email).report.category = "general"
    ∧ (processEmail bugId email).report.priority = "critical"
    ∧ (processEmail bugId email).report.category ≠ "security" := by
  refine ⟨?_, ?_, (processEmail_critical bugId email hm).2,
    (processEmail_critical bugId email hm).1, ?_⟩
  · simp [determineCategory, hf]
  · simp [determineCategory, hg1, hg2]
  · rw [(processEmail_critical bugId email hm).2]
    decide

/-- Witness for C3 (amended): a crisis-worded failure, a security-worded
failure and a critical-worded email. -/
theorem classifier_precedence_witness :
    determineCategory crisisFailure = "crisis-system"
    ∧ determineCategory securityFailure = "security"
    ∧ (processEmail "BUG-1" crisisSecurityEmail).report.category = "general"
    ∧ (processEmail "BUG-1" crisisSecurityEmail).report.priority = "critical"
    ∧ (processEmail "BUG-1" crisisSecurityEmail).report.category ≠ "security" :=
  classifier_precedence crisisFailure securityFailure "BUG-1" crisisSecurityEmail
    (by decide) (by decide) (by decide) (by decide)

/-- A failure with no text but an explicit critical severity marker. -/
def criticalSeverityFailure : Failure :=
  { error := none, message := none, name := none,
    severity := some "critical", blocking := false }

/-- A failure with every field absent or cleared. -/
def emptyFailure : Failure :=
  { error := none, message := none, name := none,
    severity := none, blocking := false }

/-- C7 counterexample: an event with all text fields absent but with
`severity: 'critical'` is classified with priority high, not low, because
`determinePriority` consults the severity/blocking flags after the text
patterns; its category is still general. -/
theorem severity_flag_counterexample :
    determinePriority criticalSeverityFailure = "high"
    ∧ determinePriority criticalSeverityFailure ≠ "low"
    ∧ determineCategory criticalSeverityFailure = "general" := by
  exact ⟨by decide, by decide, by decide⟩

/-- When no text pattern fires and neither severity marker nor blocking
flag is set, `determinePriority` falls through to low. -/
lemma determinePriority_low (f : Failure)
    (h1 : crisisPattern (priorityText f) = false)
    (h2 : securityPattern (priorityText f) = false)
    (h3 : performancePattern (priorityText f) = false)
    (hs : f.severity ≠ some "critical") (hb : f.blocking = false) :
    determinePriority f = "low" := by
  simp [determinePriority, h1, h2, h3, hs, hb]

/-- When no text pattern fires, `determineCategory` falls through to
general. -/
lemma determineCategory_general (f : Failure)
    (h1 : crisisPattern (categoryText f) = false)
    (h2 : securityPattern (categoryText f) = false)
    (h3 : performancePattern (categoryText f) = false)
    (h4 : buildPattern (categoryText f) = false) :
    determineCategory f = "general" := by
  simp [determineCategory, h1, h2, h3, h4]

/-- C7 (amended): for every event whose text fields (error, message, name)
are absent or empty, classification raises no error - the absent fields
render as the string "undefined", which matches no pattern - and the
category is general; the priority is low provided the event also carries
no `severity: 'critical'` marker and no blocking flag, which override the
text-based default. -/
theorem empty_text_classification (f : Failure)
    (he : f.error = none ∨ f.error = some "")
    (hm : f.message = none ∨ f.message = some "")
    (hn : f.name = none ∨ f.name = some "")
    (hs : f.severity ≠ some "critical")
    (hb : f.blocking = false) :
    determinePriority f = "low" ∧ determineCategory f = "general" := by
  obtain ⟨fe, fm, fn, fs, fb⟩ := f
  dsimp only at he hm hn hs hb
  subst hb
  rcases he with rfl | rfl <;> rcases hm with rfl | rfl <;> rcases hn with rfl | rfl <;>
    exact ⟨determinePriority_low _
        (by simp only [priorityText, jsStr]; decide)
        (by simp only [priorityText, jsStr]; decide)
        (by simp only [priorityText, jsStr]; decide) hs rfl,
      determineCategory_general _
        (by simp only [categoryText, jsStr]; decide)
        (by simp only [categoryText, jsStr]; decide)
        (by simp only [categoryText, jsStr]; decide)
        (by simp only [categoryText, jsStr]; decide)⟩

/-- Witness for C7 (amended): the all-absent failure record. -/
theorem empty_text_classification_witness :
    determinePriority emptyFailure = "low"
    ∧ determineCategory emptyFailure = "general" :=
  empty_text_classification emptyFailure
    (Or.inl rfl) (Or.inl rfl) (Or.inl rfl) (by decide) rfl

/-- C8: `classify` is deterministic and idempotent - two evaluations on the
same text agree, and the result depends only on the field values of the
failure record (the embedding is a pure function, mirroring that the JS
patterns carry no `g` flag and `determinePriority`/`determineCategory`
write no state). -/
theorem classify_deterministic (f g : Failure)
    (he : f.error = g.error) (hm : f.message = g.message) (hn : f.name = g.name)
    (hs : f.severity = g.severity) (hb : f.blocking = g.blocking) :
    classify f = classify f ∧ classify f = classify g := by
  obtain ⟨fe, fm, fn, fs, fb⟩ := f
  obtain ⟨ge, gm, gn, gs, gb⟩ := g
  dsimp only at he hm hn hs hb
  subst he; subst hm; subst hn; subst hs; subst hb
  exact ⟨rfl, rfl⟩

/-- A second, fieldwise-equal copy of `crisisFailure`, for the C8 witness. -/
def crisisFailureCopy : Failure :=
  { error := some "crisis", message := none, name := none,
    severity := none, blocking := false }

/-- Witness for C8 at a concrete failure record. -/
theorem classify_deterministic_witness :
    classify crisisFailure = classify crisisFailure
    ∧ classify crisisFailure = classify crisisFailureCopy :=
  classify_deterministic crisisFailure crisisFailureCopy rfl rfl rfl rfl rfl

/-- C10: `processEmail` persists a bug report, a TODO item and an
acknowledgment exactly when the bug pattern matches the lowercased
subject-and-body content (so an email matching only the critical, security
or performance patterns produces no persisted output), and content
matching the critical pattern yields priority critical with the category
left at general. -/
theorem bug_pattern_gate (bugId1 bugId2 : String) (e1 e2 : ParsedEmail)
    (h : monitorCriticalPattern (contentOf e2) = true) :
    ((processEmail bugId1 e1).outputs).isSome = monitorBugPattern (contentOf e1)
    ∧ (processEmail bugId2 e2).report.priority = "critical"
    ∧ (processEmail bugId2 e2).report.category = "general" := by
  exact ⟨processEmail_outputs_isSome bugId1 e1,
    (processEmail_critical bugId2 e2 h).1, (processEmail_critical bugId2 e2 h).2⟩

/-- An email matching only the security pattern and not the bug pattern,
for the C10 witness. -/
def securityOnlyEmail : ParsedEmail :=
  { fromText := none, subject := some "security vulnerability",
    text := some "breach", html := none }

/-- An email matching the critical pattern (and the bug pattern), for the
C10 witness. -/
def criticalBugEmail : ParsedEmail :=
  { fromText := none, subject := some "critical bug", text := some "x", html := none }

/-- Witness for C10: a security-only email produces no output, and a
critical bug email is classified critical/general. -/
theorem bug_pattern_gate_witness :
    ((processEmail "BUG-1" securityOnlyEmail).outputs).isSome
        = monitorBugPattern (contentOf securityOnlyEmail)
    ∧ (processEmail "BUG-2" criticalBugEmail).report.priority = "critical"
    ∧ (processEmail "BUG-2" criticalBugEmail).report.category = "general" :=
  bug_pattern_gate "BUG-1" "BUG-2" securityOnlyEmail criticalBugEmail (by decide)
